import Mathlib

/-!
Shallow embedding of the aquario-stats contributor aggregation/ranking pipeline.

The repository has two Python scripts, `scripts/generate-images.py` (matplotlib
charts) and `scripts/generate-html-images.py` (HTML templates rasterized by a
headless browser).  Both share the same core: locate the most recent
contributor JSON file, normalize records into per-contributor summaries, sort
by commits descending, and hand the result to a rendering backend.

Python dictionaries with optionally-present fields are embedded as structures
of `Option` fields: `d.get(k, v)` becomes `Option.getD`, `k in d` becomes
`Option.isSome`, and a bare subscript `d[k]` becomes a fallible access in the
`Except` monad (a `KeyError` is an exception escaping the function).
`list.sort(key=..., reverse=True)` is Python's Timsort, a stable sort; any two
stable sorts by the same total preorder agree on every list, so it is embedded
as `List.insertionSort` with the decidable total transitive relation
"greater-or-equal commits".  Wall-clock timestamp fields (`last_updated`,
`generated_at`) are omitted: they are nondeterministic and no claim concerns
them.  Rendering backends are external collaborators: their success or failure
enters the embedding as boolean parameters, and file-system state enters as an
explicit directory listing.
-/

set_option maxRecDepth 8000

open List

deriving instance DecidableEq for Except

/-- One entry of a contributor's `weeks` array.  Each field may be absent;
the scripts read them with `week.get('additions', 0)`. -/
structure Week where
  additions : Option Int
  deletions : Option Int
deriving DecidableEq, Repr

/-- The `author` identity object of a raw contributor record. -/
structure Author where
  login : Option String
  avatar_url : Option String
  html_url : Option String
deriving DecidableEq, Repr

/-- A raw contributor record as parsed from JSON.  `weeks = some ws` models a
record containing the `weeks` key (full shape); `weeks = none` models the
summary shape. -/
structure RawContributor where
  author : Option Author
  total_commits : Option Int
  weeks : Option (List Week)
  total_additions : Option Int
  total_deletions : Option Int
deriving DecidableEq, Repr

/-- The optional `statistics` object of the parsed document. -/
structure Statistics where
  total_commits : Option Int
deriving DecidableEq, Repr

/-- The parsed JSON document handed to `prepare_contributor_data`. -/
structure PyDoc where
  repository : Option String
  contributors : Option (List RawContributor)
  statistics : Option Statistics
deriving DecidableEq, Repr

/-- The uniform per-contributor summary both scripts build. -/
structure ContributorSummary where
  name : String
  commits : Int
  additions : Int
  deletions : Int
  net_lines : Int
  avatar_url : Option String
  profile_url : Option String
deriving DecidableEq, Repr

/-- `week.get('additions', 0)`. -/
def weekAdditions (w : Week) : Int := w.additions.getD 0

/-- `week.get('deletions', 0)`. -/
def weekDeletions (w : Week) : Int := w.deletions.getD 0

/-- Per-record derivation of `additions`, identical in both scripts:
if the `weeks` key is present, sum `week.get('additions', 0)` over it,
else read `contributor.get('total_additions', 0)`. -/
def recordAdditions (c : RawContributor) : Int :=
  match c.weeks with
  | some ws => (ws.map weekAdditions).sum
  | none => c.total_additions.getD 0

/-- Per-record derivation of `deletions`, mirror of `recordAdditions`. -/
def recordDeletions (c : RawContributor) : Int :=
  match c.weeks with
  | some ws => (ws.map weekDeletions).sum
  | none => c.total_deletions.getD 0

/-- The loop body of `prepare_contributor_data` in `generate-html-images.py`:
builds one summary dict per record.  `contributor['author']['login']` and
`contributor['total_commits']` are bare subscripts and raise `KeyError` when
absent; `avatar_url` and `html_url` are read with `.get` and pass through as
optional. -/
def summarizeHtml (c : RawContributor) : Except String ContributorSummary :=
  match c.author with
  | none => Except.error "KeyError: author"
  | some a =>
    match a.login with
    | none => Except.error "KeyError: login"
    | some login =>
      match c.total_commits with
      | none => Except.error "KeyError: total_commits"
      | some commits =>
        Except.ok { name := login, commits := commits,
                    additions := recordAdditions c, deletions := recordDeletions c,
                    net_lines := recordAdditions c - recordDeletions c,
                    avatar_url := a.avatar_url, profile_url := a.html_url }

/-- The loop body of `prepare_contributor_data` in `generate-images.py`.
Unlike the HTML script it also reads `contributor['author']['avatar_url']`
with a bare subscript, and builds no `profile_url`. -/
def summarizeCharts (c : RawContributor) : Except String ContributorSummary :=
  match c.author with
  | none => Except.error "KeyError: author"
  | some a =>
    match a.login with
    | none => Except.error "KeyError: login"
    | some login =>
      match c.total_commits with
      | none => Except.error "KeyError: total_commits"
      | some commits =>
        match a.avatar_url with
        | none => Except.error "KeyError: avatar_url"
        | some avatar =>
          Except.ok { name := login, commits := commits,
                      additions := recordAdditions c, deletions := recordDeletions c,
                      net_lines := recordAdditions c - recordDeletions c,
                      avatar_url := some avatar, profile_url := none }

/-- The `for contributor in contributors` loop appending one summary per
record; the first `KeyError` aborts the whole loop. -/
def summarizeAllHtml : List RawContributor → Except String (List ContributorSummary)
  | [] => Except.ok []
  | c :: rest =>
    match summarizeHtml c with
    | Except.error e => Except.error e
    | Except.ok s =>
      match summarizeAllHtml rest with
      | Except.error e => Except.error e
      | Except.ok ss => Except.ok (s :: ss)

/-- The summarizing loop of `generate-images.py`. -/
def summarizeAllCharts : List RawContributor → Except String (List ContributorSummary)
  | [] => Except.ok []
  | c :: rest =>
    match summarizeCharts c with
    | Except.error e => Except.error e
    | Except.ok s =>
      match summarizeAllCharts rest with
      | Except.error e => Except.error e
      | Except.ok ss => Except.ok (s :: ss)

/-- The ordering used by `contributors_data.sort(key=lambda x: x['commits'],
reverse=True)`: a precedes b when a has at least as many commits. -/
def commitsGe (a b : ContributorSummary) : Prop := b.commits ≤ a.commits

instance : DecidableRel commitsGe := fun a b =>
  inferInstanceAs (Decidable (b.commits ≤ a.commits))

instance : IsTotal ContributorSummary commitsGe :=
  ⟨fun a b => le_total b.commits a.commits⟩

instance : IsTrans ContributorSummary commitsGe :=
  ⟨fun _ _ _ hab hbc => le_trans hbc hab⟩

/-- `list.sort(key=commits, reverse=True)`: the stable descending sort by
commit count. -/
def sortByCommitsDesc (l : List ContributorSummary) : List ContributorSummary :=
  List.insertionSort commitsGe l

/-- The aggregate `total_additions` of `generate-html-images.py` (lines
62-65): it sums `week.get('additions', 0)` over `contributor.get('weeks', [])`
for every record, so a summary-shape record (no `weeks` key) contributes 0
here even when its `total_additions` field is positive. -/
def totalAdditionsAgg (cs : List RawContributor) : Int :=
  (cs.map (fun c => ((c.weeks.getD []).map weekAdditions).sum)).sum

/-- The aggregate `total_deletions` of `generate-html-images.py` (lines
66-69), mirror of `totalAdditionsAgg`. -/
def totalDeletionsAgg (cs : List RawContributor) : Int :=
  (cs.map (fun c => ((c.weeks.getD []).map weekDeletions).sum)).sum

/-- The dict returned by `prepare_contributor_data` in
`generate-html-images.py` (the `last_updated` wall-clock field is omitted). -/
structure RunAggregate where
  repository : String
  total_contributors : Nat
  total_commits : Int
  total_additions : Int
  total_deletions : Int
  net_lines : Int
  contributors : List ContributorSummary
deriving DecidableEq, Repr

/-- `prepare_contributor_data` of `generate-html-images.py`: reads
`contributors` and `statistics` with `.get` defaults, computes the aggregate
totals from `weeks` only, builds one summary per record (a `KeyError`
escapes), sorts by commits descending, and assembles the result dict.
`total_commits` prefers `statistics['total_commits']` when present, else the
sum of the per-contributor commits. -/
def prepare_contributor_data (doc : PyDoc) : Except String RunAggregate :=
  let contributors := doc.contributors.getD []
  let statsTotalCommits := doc.statistics.bind Statistics.total_commits
  let total_additions := totalAdditionsAgg contributors
  let total_deletions := totalDeletionsAgg contributors
  match summarizeAllHtml contributors with
  | Except.error e => Except.error e
  | Except.ok contributors_data =>
    let ranked := sortByCommitsDesc contributors_data
    Except.ok
      { repository := doc.repository.getD "aquario-ufpb/aquario",
        total_contributors := contributors.length,
        total_commits := statsTotalCommits.getD ((ranked.map ContributorSummary.commits).sum),
        total_additions := total_additions,
        total_deletions := total_deletions,
        net_lines := total_additions - total_deletions,
        contributors := ranked }

/-- `prepare_contributor_data` of `generate-images.py`: on an empty
contributor list it prints a diagnostic and returns the empty list; otherwise
it builds one summary per record (a `KeyError` escapes) and sorts by commits
descending. -/
def prepare_contributor_data_charts (doc : PyDoc) : Except String (List ContributorSummary) :=
  let contributors := doc.contributors.getD []
  if contributors.isEmpty then Except.ok []
  else
    match summarizeAllCharts contributors with
    | Except.error e => Except.error e
    | Except.ok processed => Except.ok (sortByCommitsDesc processed)

/-- The top-3 slice `data['contributors'][:3]` rendered by
`create_overview_html`. -/
def overview_top3 (data : RunAggregate) : List ContributorSummary :=
  data.contributors.take 3

/-- The rows of `create_detailed_html`: the loop runs over all of
`data['contributors']`, one table row per summary, no truncation. -/
def detailed_ranking_rows (data : RunAggregate) : List ContributorSummary :=
  data.contributors

/-- The top-3 slice `contributors[:3]` drawn by `create_top3_chart`. -/
def top3_chart_contributors (l : List ContributorSummary) : List ContributorSummary :=
  l.take 3

/-- `create_complete_ranking_chart` starts with
`top_contributors = contributors[:10]` ("Limit to top 10 for readability")
and draws only that slice. -/
def complete_ranking_chart_contributors (l : List ContributorSummary) : List ContributorSummary :=
  l.take 10

/-- The height of the complete-ranking image in `generate_images`:
`360 + len(data['contributors']) * 45`. -/
def height_complete_ranking (data : RunAggregate) : Nat :=
  360 + data.contributors.length * 45

/-- A directory entry: file name and modification time. -/
structure FileEntry where
  name : String
  mtime : Int
deriving DecidableEq, Repr

/-- Python's `str.startswith`, on the character sequences of the strings. -/
def strStartsWith (s p : String) : Bool := p.data.isPrefixOf s.data

/-- Python's `str.endswith`, on the character sequences of the strings. -/
def strEndsWith (s p : String) : Bool := p.data.isSuffixOf s.data

/-- The full-convention filter of `load_data`:
`f.startswith('contributors-') and not f.startswith('contributors-summary-')
and f.endswith('.json')`. -/
def isFullFile (f : String) : Bool :=
  strStartsWith f "contributors-" && !(strStartsWith f "contributors-summary-") &&
    strEndsWith f ".json"

/-- The summary-convention filter of `load_data`:
`f.startswith('contributors-summary-') and f.endswith('.json')`. -/
def isSummaryFile (f : String) : Bool :=
  strStartsWith f "contributors-summary-" && strEndsWith f ".json"

/-- The ordering used by `files.sort(key=lambda x: os.path.getmtime(x),
reverse=True)`. -/
def mtimeGe (a b : FileEntry) : Prop := b.mtime ≤ a.mtime

instance : DecidableRel mtimeGe := fun a b =>
  inferInstanceAs (Decidable (b.mtime ≤ a.mtime))

instance : IsTotal FileEntry mtimeGe := ⟨fun a b => le_total b.mtime a.mtime⟩

instance : IsTrans FileEntry mtimeGe := ⟨fun _ _ _ hab hbc => le_trans hbc hab⟩

/-- Stable descending sort by modification time. -/
def sortByMtimeDesc (l : List FileEntry) : List FileEntry :=
  List.insertionSort mtimeGe l

/-- The file-selection part of `load_data`, identical in both scripts: filter
the directory listing to full-convention names and pick the most recently
modified; if none, fall back to summary-convention names; if none of those
either, report no data found (`none`). -/
def load_data_select (files : List FileEntry) : Option FileEntry :=
  let full := files.filter (fun f => isFullFile f.name)
  if full.isEmpty then
    let summ := files.filter (fun f => isSummaryFile f.name)
    if summ.isEmpty then none
    else (sortByMtimeDesc summ).head?
  else (sortByMtimeDesc full).head?

/-- `generate_images` of `generate-html-images.py`.  `loadResult` is the
outcome of `load_data` plus parsing (`none`: no file found or load error, in
which case the method returned `False` before any rendering);
`overviewRenderOk` and `detailedRenderOk` are the boolean outcomes of the two
`render_html_to_image` calls, whose internal errors are caught and returned
as `False`.  `prepare_contributor_data` is called outside any try/except, so
its exceptions propagate. -/
def generate_images (loadResult : Option PyDoc)
    (overviewRenderOk detailedRenderOk : Bool) : Except String Bool :=
  match loadResult with
  | none => Except.ok false
  | some doc =>
    match prepare_contributor_data doc with
    | Except.error e => Except.error e
    | Except.ok _data =>
      if !overviewRenderOk then Except.ok false
      else if !detailedRenderOk then Except.ok false
      else Except.ok true

/-- `generate_all_charts` of `generate-images.py`: abort with `False` when
`load_data` failed; call `prepare_contributor_data` (exceptions propagate);
abort with `False` when the prepared list is empty; otherwise draw the two
charts and report success. -/
def generate_all_charts (loadResult : Option PyDoc) : Except String Bool :=
  match loadResult with
  | none => Except.ok false
  | some doc =>
    match prepare_contributor_data_charts doc with
    | Except.error e => Except.error e
    | Except.ok contributors =>
      if contributors.isEmpty then Except.ok false
      else Except.ok true

/-- Process exit status of `main` in either script: exit code 1 on a `False`
result, 0 on success, and an uncaught exception otherwise. -/
def mainExitCode (r : Except String Bool) : Except String Nat :=
  match r with
  | Except.ok true => Except.ok 0
  | Except.ok false => Except.ok 1
  | Except.error e => Except.error e

example : isFullFile "contributors-2024.json" = true := by decide
example : isFullFile "contributors-summary-2024.json" = false := by decide
example : isSummaryFile "contributors-summary-2024.json" = true := by decide
example :
    load_data_select [⟨"contributors-a.json", 5⟩, ⟨"contributors-summary-b.json", 9⟩] =
      some ⟨"contributors-a.json", 5⟩ := by decide
example :
    summarizeHtml { author := some { login := some "x", avatar_url := none, html_url := none },
                    total_commits := some 10,
                    weeks := some [{ additions := some 100, deletions := some 20 },
                                   { additions := some 5, deletions := some 0 }],
                    total_additions := none, total_deletions := none } =
      Except.ok { name := "x", commits := 10, additions := 105, deletions := 20,
                  net_lines := 85, avatar_url := none, profile_url := none } := by decide

/-! ### Helper lemmas -/

theorem summarizeHtml_ok_of_fields {c : RawContributor} {a : Author} {nm : String} {k : Int}
    (hA : c.author = some a) (hL : a.login = some nm) (hK : c.total_commits = some k) :
    summarizeHtml c = Except.ok
      { name := nm, commits := k,
        additions := recordAdditions c, deletions := recordDeletions c,
        net_lines := recordAdditions c - recordDeletions c,
        avatar_url := a.avatar_url, profile_url := a.html_url } := by
  simp only [summarizeHtml, hA, hL, hK]

theorem summarizeHtml_ok_fields {c : RawContributor} {s : ContributorSummary}
    (h : summarizeHtml c = Except.ok s) :
    s.additions = recordAdditions c ∧ s.deletions = recordDeletions c ∧
    s.net_lines = recordAdditions c - recordDeletions c ∧
    c.total_commits = some s.commits := by
  cases hA : c.author with
  | none => simp [summarizeHtml, hA] at h
  | some a =>
    cases hL : a.login with
    | none => simp [summarizeHtml, hA, hL] at h
    | some login =>
      cases hK : c.total_commits with
      | none => simp [summarizeHtml, hA, hL, hK] at h
      | some k =>
        rw [summarizeHtml_ok_of_fields hA hL hK] at h
        cases h
        exact ⟨rfl, rfl, rfl, rfl⟩

theorem summarizeAllHtml_ok_stats :
    ∀ {cs : List RawContributor} {ds : List ContributorSummary},
      summarizeAllHtml cs = Except.ok ds →
      ds.length = cs.length ∧
      (ds.map ContributorSummary.additions).sum = (cs.map recordAdditions).sum ∧
      (ds.map ContributorSummary.deletions).sum = (cs.map recordDeletions).sum := by
  intro cs
  induction cs with
  | nil =>
    intro ds h
    unfold summarizeAllHtml at h
    cases h
    simp
  | cons c rest ih =>
    intro ds h
    unfold summarizeAllHtml at h
    cases hc : summarizeHtml c with
    | error e => rw [hc] at h; exact Except.noConfusion h
    | ok s =>
      rw [hc] at h
      cases hr : summarizeAllHtml rest with
      | error e => rw [hr] at h; exact Except.noConfusion h
      | ok ss =>
        rw [hr] at h
        cases h
        obtain ⟨hlen, hadd, hdel⟩ := ih hr
        obtain ⟨hsa, hsd, _, _⟩ := summarizeHtml_ok_fields hc
        refine ⟨by simp [hlen], by simp [hsa, hadd], by simp [hsd, hdel]⟩

theorem summarizeAllCharts_ok_length :
    ∀ {cs : List RawContributor} {ds : List ContributorSummary},
      summarizeAllCharts cs = Except.ok ds → ds.length = cs.length := by
  intro cs
  induction cs with
  | nil =>
    intro ds h
    unfold summarizeAllCharts at h
    cases h
    rfl
  | cons c rest ih =>
    intro ds h
    unfold summarizeAllCharts at h
    cases hc : summarizeCharts c with
    | error e => rw [hc] at h; exact Except.noConfusion h
    | ok s =>
      rw [hc] at h
      cases hr : summarizeAllCharts rest with
      | error e => rw [hr] at h; exact Except.noConfusion h
      | ok ss =>
        rw [hr] at h
        cases h
        simp [ih hr]

theorem totalAdditionsAgg_cons (c : RawContributor) (rest : List RawContributor) :
    totalAdditionsAgg (c :: rest) =
      ((c.weeks.getD []).map weekAdditions).sum + totalAdditionsAgg rest := by
  simp [totalAdditionsAgg]

theorem totalDeletionsAgg_cons (c : RawContributor) (rest : List RawContributor) :
    totalDeletionsAgg (c :: rest) =
      ((c.weeks.getD []).map weekDeletions).sum + totalDeletionsAgg rest := by
  simp [totalDeletionsAgg]

theorem totalAgg_of_full :
    ∀ {cs : List RawContributor}, (∀ c ∈ cs, c.weeks.isSome = true) →
      totalAdditionsAgg cs = (cs.map recordAdditions).sum ∧
      totalDeletionsAgg cs = (cs.map recordDeletions).sum := by
  intro cs
  induction cs with
  | nil => intro _; exact ⟨rfl, rfl⟩
  | cons c rest ih =>
    intro h
    obtain ⟨h1, h2⟩ := ih (fun x hx => h x (List.mem_cons_of_mem _ hx))
    have hc := h c (List.mem_cons_self _ _)
    cases hw : c.weeks with
    | none => rw [hw] at hc; simp at hc
    | some ws =>
      constructor
      · rw [totalAdditionsAgg_cons, h1]
        simp [recordAdditions, hw]
      · rw [totalDeletionsAgg_cons, h2]
        simp [recordDeletions, hw]

theorem sortByCommitsDesc_perm (l : List ContributorSummary) : sortByCommitsDesc l ~ l :=
  List.perm_insertionSort _ _

theorem sortByCommitsDesc_sorted (l : List ContributorSummary) :
    (sortByCommitsDesc l).Pairwise commitsGe :=
  List.sorted_insertionSort _ _

theorem sortByMtimeDesc_head_max {l : List FileEntry} {f : FileEntry} (hf : f ∈ l) :
    ∃ m, (sortByMtimeDesc l).head? = some m ∧ m ∈ l ∧ ∀ g ∈ l, g.mtime ≤ m.mtime := by
  have hperm : sortByMtimeDesc l ~ l := List.perm_insertionSort _ _
  have hsorted : List.Sorted mtimeGe (sortByMtimeDesc l) := List.sorted_insertionSort _ _
  cases hs : sortByMtimeDesc l with
  | nil =>
    rw [hs] at hperm
    have hnil : l = [] := hperm.symm.eq_nil
    subst hnil
    cases hf
  | cons m rest =>
    rw [hs] at hperm hsorted
    refine ⟨m, rfl, hperm.subset (List.mem_cons_self _ _), fun g hg => ?_⟩
    have hg' : g ∈ m :: rest := hperm.symm.subset hg
    cases List.mem_cons.mp hg' with
    | inl heq => subst heq; exact le_refl _
    | inr hmem => exact List.rel_of_sorted_cons hsorted g hmem

/-! ### Concrete inputs used by witnesses and counterexamples -/

/-- The identity object of the spec's worked example. -/
def authorX : Author := { login := some "x", avatar_url := none, html_url := none }

/-- The full-shape record of the spec's worked example:
`{login:"x", total_commits:10, weeks:[{additions:100,deletions:20},{additions:5,deletions:0}]}`. -/
def recordX : RawContributor :=
  { author := some authorX, total_commits := some 10,
    weeks := some [{ additions := some 100, deletions := some 20 },
                   { additions := some 5, deletions := some 0 }],
    total_additions := none, total_deletions := none }

/-- Summary A of the spec's stability example (5 commits, first in input). -/
def exA : ContributorSummary :=
  { name := "A", commits := 5, additions := 0, deletions := 0, net_lines := 0,
    avatar_url := none, profile_url := none }

/-- Summary B of the spec's stability example (5 commits, second in input). -/
def exB : ContributorSummary := { exA with name := "B" }

/-- Summary C of the spec's stability example (3 commits, third in input). -/
def exC : ContributorSummary := { exA with name := "C", commits := 3 }

/-! ### Claims -/

/-- C1: For every contributor record (whose identity object and total_commits
are present, as the code reads them with bare subscripts), the derived
ContributorSummary's additions and deletions equal the sum of the
additions/deletions fields over the record's weeks sequence when a weeks field
is present, and otherwise equal the record's total_additions/total_deletions
fields verbatim; net_lines always equals additions minus deletions. -/
theorem C1_summary_derivation (c : RawContributor) (a : Author) (nm : String) (k : Int)
    (hA : c.author = some a) (hL : a.login = some nm) (hK : c.total_commits = some k) :
    ∃ s : ContributorSummary, summarizeHtml c = Except.ok s ∧
      s.name = nm ∧ s.commits = k ∧
      (∀ ws, c.weeks = some ws →
        s.additions = (ws.map weekAdditions).sum ∧
        s.deletions = (ws.map weekDeletions).sum) ∧
      (∀ ta, c.weeks = none → c.total_additions = some ta → s.additions = ta) ∧
      (∀ td, c.weeks = none → c.total_deletions = some td → s.deletions = td) ∧
      s.net_lines = s.additions - s.deletions := by
  refine ⟨_, summarizeHtml_ok_of_fields hA hL hK, rfl, rfl, ?_, ?_, ?_, rfl⟩
  · intro ws hws
    exact ⟨by simp [recordAdditions, hws], by simp [recordDeletions, hws]⟩
  · intro ta hw hta
    simp [recordAdditions, hw, hta]
  · intro td hw htd
    simp [recordDeletions, hw, htd]

/-- Witness for C1 at the spec's worked example: commits 10, additions 105,
deletions 20, net_lines 85. -/
theorem C1_summary_derivation_witness :
    recordX.author = some authorX ∧ authorX.login = some "x" ∧
    recordX.total_commits = some 10 ∧
    (∃ s : ContributorSummary, summarizeHtml recordX = Except.ok s ∧
      s.name = "x" ∧ s.commits = 10 ∧
      (∀ ws, recordX.weeks = some ws →
        s.additions = (ws.map weekAdditions).sum ∧
        s.deletions = (ws.map weekDeletions).sum) ∧
      (∀ ta, recordX.weeks = none → recordX.total_additions = some ta → s.additions = ta) ∧
      (∀ td, recordX.weeks = none → recordX.total_deletions = some td → s.deletions = td) ∧
      s.net_lines = s.additions - s.deletions) ∧
    summarizeHtml recordX = Except.ok
      { name := "x", commits := 10, additions := 105, deletions := 20, net_lines := 85,
        avatar_url := none, profile_url := none } :=
  ⟨rfl, rfl, rfl, C1_summary_derivation recordX authorX "x" 10 rfl rfl rfl, by decide⟩

/-- C2: The ranking is a stable sort by commits descending: the output is
sorted non-increasingly by commits, and any two summaries with equal commits
keep their relative input order (as a pair sublist). -/
theorem C2_ranking_stable (l : List ContributorSummary) (x y : ContributorSummary)
    (hxy : x.commits = y.commits) (hsub : [x, y] <+ l) :
    (sortByCommitsDesc l).Pairwise commitsGe ∧ [x, y] <+ sortByCommitsDesc l :=
  ⟨sortByCommitsDesc_sorted l,
   List.pair_sublist_insertionSort (le_of_eq hxy.symm) hsub⟩

/-- Witness for C2 at the spec's example: commits [5,5,3] for [A,B,C] in that
input order rank as [A,B,C], never [B,A,C]. -/
theorem C2_ranking_stable_witness :
    exA.commits = exB.commits ∧ [exA, exB] <+ [exA, exB, exC] ∧
    ((sortByCommitsDesc [exA, exB, exC]).Pairwise commitsGe ∧
      [exA, exB] <+ sortByCommitsDesc [exA, exB, exC]) ∧
    sortByCommitsDesc [exA, exB, exC] = [exA, exB, exC] :=
  ⟨rfl,
   List.Sublist.cons₂ _ (List.Sublist.cons₂ _ (List.nil_sublist [exC])),
   C2_ranking_stable [exA, exB, exC] exA exB rfl
     (List.Sublist.cons₂ _ (List.Sublist.cons₂ _ (List.nil_sublist [exC]))),
   by decide⟩

/-- A summary-shape record whose totals the aggregate-level sums ignore. -/
def recordSummaryShape : RawContributor :=
  { author := some authorX, total_commits := some 1, weeks := none,
    total_additions := some 5, total_deletions := some 2 }

/-- A document holding a single summary-shape record. -/
def docC3 : PyDoc :=
  { repository := none, contributors := some [recordSummaryShape], statistics := none }

/-- The aggregate the HTML script builds for `docC3`. -/
def aggC3 : RunAggregate :=
  { repository := "aquario-ufpb/aquario", total_contributors := 1, total_commits := 1,
    total_additions := 0, total_deletions := 0, net_lines := 0,
    contributors := [{ name := "x", commits := 1, additions := 5, deletions := 2,
                       net_lines := 3, avatar_url := none, profile_url := none }] }

/-- C3 counterexample: on a document with one summary-shape record
(total_additions 5, total_deletions 2) the per-contributor summaries carry
additions 5 and deletions 2, but the aggregate total_additions and
total_deletions are 0: the aggregate totals are computed from `weeks` only and
do not equal the sums of the derived per-contributor values. -/
theorem C3_counterexample :
    prepare_contributor_data docC3 = Except.ok aggC3 ∧
    (aggC3.contributors.map ContributorSummary.additions).sum = 5 ∧
    (aggC3.contributors.map ContributorSummary.deletions).sum = 2 ∧
    aggC3.total_additions = 0 ∧ aggC3.total_deletions = 0 ∧
    ¬ aggC3.total_additions = (aggC3.contributors.map ContributorSummary.additions).sum ∧
    ¬ aggC3.total_deletions = (aggC3.contributors.map ContributorSummary.deletions).sum := by
  decide

/-- C3 (amended): when every record of the parsed document is in the full
shape (has a weeks field), the RunAggregate's total_additions equals the sum of
the derived per-contributor additions and total_deletions the sum of the
derived deletions; the aggregate net_lines always equals total_additions minus
total_deletions.  (For summary-shape records the aggregate totals count 0,
because they are computed from `weeks` only.) -/
theorem C3_aggregate_totals_full_shape (doc : PyDoc) (agg : RunAggregate)
    (h : prepare_contributor_data doc = Except.ok agg)
    (hfull : ∀ c ∈ doc.contributors.getD [], c.weeks.isSome = true) :
    agg.total_additions = (agg.contributors.map ContributorSummary.additions).sum ∧
    agg.total_deletions = (agg.contributors.map ContributorSummary.deletions).sum ∧
    agg.net_lines = agg.total_additions - agg.total_deletions := by
  simp only [prepare_contributor_data] at h
  cases hs : summarizeAllHtml (doc.contributors.getD []) with
  | error e => rw [hs] at h; exact Except.noConfusion h
  | ok ds =>
    rw [hs] at h
    cases h
    obtain ⟨hlen, hadd, hdel⟩ := summarizeAllHtml_ok_stats hs
    obtain ⟨ha, hd⟩ := totalAgg_of_full hfull
    have hpa : ((sortByCommitsDesc ds).map ContributorSummary.additions).sum
        = (ds.map ContributorSummary.additions).sum :=
      ((sortByCommitsDesc_perm ds).map ContributorSummary.additions).sum_eq
    have hpd : ((sortByCommitsDesc ds).map ContributorSummary.deletions).sum
        = (ds.map ContributorSummary.deletions).sum :=
      ((sortByCommitsDesc_perm ds).map ContributorSummary.deletions).sum_eq
    exact ⟨by rw [ha, ← hadd, ← hpa], by rw [hd, ← hdel, ← hpd], rfl⟩

/-- A second full-shape record for the full-shape witness document. -/
def recordY : RawContributor :=
  { author := some { login := some "y", avatar_url := some "uy", html_url := some "py" },
    total_commits := some 2,
    weeks := some [{ additions := some 7, deletions := some 3 }],
    total_additions := none, total_deletions := none }

/-- A document whose records are all full-shape. -/
def docFull : PyDoc :=
  { repository := some "r/repo", contributors := some [recordX, recordY],
    statistics := none }

/-- The summary the HTML script derives from `recordX`. -/
def summaryX : ContributorSummary :=
  { name := "x", commits := 10, additions := 105, deletions := 20, net_lines := 85,
    avatar_url := none, profile_url := none }

/-- The summary the HTML script derives from `recordY`. -/
def summaryY : ContributorSummary :=
  { name := "y", commits := 2, additions := 7, deletions := 3, net_lines := 4,
    avatar_url := some "uy", profile_url := some "py" }

/-- The aggregate the HTML script builds for `docFull`. -/
def aggFull : RunAggregate :=
  { repository := "r/repo", total_contributors := 2, total_commits := 12,
    total_additions := 112, total_deletions := 23, net_lines := 89,
    contributors := [summaryX, summaryY] }

/-- Witness for the amended C3 at a concrete all-full-shape document. -/
theorem C3_aggregate_totals_full_shape_witness :
    prepare_contributor_data docFull = Except.ok aggFull ∧
    (∀ c ∈ docFull.contributors.getD [], c.weeks.isSome = true) ∧
    (aggFull.total_additions = (aggFull.contributors.map ContributorSummary.additions).sum ∧
     aggFull.total_deletions = (aggFull.contributors.map ContributorSummary.deletions).sum ∧
     aggFull.net_lines = aggFull.total_additions - aggFull.total_deletions) :=
  ⟨by decide, by decide,
   C3_aggregate_totals_full_shape docFull aggFull (by decide) (by decide)⟩

/-- A record whose `total_commits` key is absent. -/
def docC4 : PyDoc :=
  { repository := none,
    contributors := some [{ author := some authorX, total_commits := none, weeks := none,
                            total_additions := some 1, total_deletions := none }],
    statistics := none }

/-- C4 counterexample: a parsed document whose record lacks total_commits does
not lead to a caught diagnostic abort; the KeyError escapes the aggregation
stage and both top-level stage methods uncaught, a bare crash rather than a
boolean/exit-code failure signal. -/
theorem C4_counterexample :
    prepare_contributor_data docC4 = Except.error "KeyError: total_commits" ∧
    generate_images (some docC4) true true = Except.error "KeyError: total_commits" ∧
    generate_all_charts (some docC4) = Except.error "KeyError: total_commits" ∧
    mainExitCode (generate_images (some docC4) true true) =
      Except.error "KeyError: total_commits" := by
  decide

/-- C4 (amended): errors in the loading stage and in the rendering stage are
caught and converted into boolean failure signals, but the aggregation stage
is not guarded: whenever prepare_contributor_data raises (a record missing the
identity object or total_commits), the exception escapes generate_images
uncaught; when it succeeds, the run's outcome is the conjunction of the two
render outcomes. -/
theorem C4_error_conversion (r1 r2 : Bool) (doc : PyDoc) :
    generate_images none r1 r2 = Except.ok false ∧
    generate_all_charts none = Except.ok false ∧
    (∀ e, prepare_contributor_data doc = Except.error e →
      generate_images (some doc) r1 r2 = Except.error e) ∧
    (∀ agg, prepare_contributor_data doc = Except.ok agg →
      generate_images (some doc) r1 r2 = Except.ok (r1 && r2)) := by
  refine ⟨rfl, rfl, ?_, ?_⟩
  · intro e he
    simp [generate_images, he]
  · intro agg hagg
    simp only [generate_images, hagg]
    cases r1 <;> cases r2 <;> rfl

/-- Witness for the amended C4 at the record missing total_commits. -/
theorem C4_error_conversion_witness :
    prepare_contributor_data docC4 = Except.error "KeyError: total_commits" ∧
    generate_images (some docC4) true true = Except.error "KeyError: total_commits" :=
  ⟨by decide,
   (C4_error_conversion true true docC4).2.2.1 "KeyError: total_commits" (by decide)⟩

/-- A parsed document with an empty contributor list. -/
def docEmpty : PyDoc :=
  { repository := none, contributors := some [], statistics := none }

/-- C5 counterexample: in the chart pipeline an empty contributor list is NOT
a valid non-error run: generate_all_charts reports the run as failed (False,
process exit code 1) because of the empty list. -/
theorem C5_counterexample :
    generate_all_charts (some docEmpty) = Except.ok false ∧
    mainExitCode (generate_all_charts (some docEmpty)) = Except.ok 1 := by
  decide

/-- C5 (amended): for the HTML pipeline an empty contributor list is a valid
non-error run: the aggregate has total_contributors 0 and (when no external
total_commits statistic is supplied) total_commits 0, the top-3 view is empty,
the complete-ranking image height equals the base constant 360 with no per-row
additions, and generate_images succeeds; the chart pipeline, however, reports
the run as failed on an empty contributor list. -/
theorem C5_empty_list (doc : PyDoc)
    (hc : doc.contributors = some [])
    (hs : doc.statistics.bind Statistics.total_commits = none) :
    ∃ agg, prepare_contributor_data doc = Except.ok agg ∧
      agg.total_contributors = 0 ∧ agg.total_commits = 0 ∧
      agg.contributors = [] ∧ overview_top3 agg = [] ∧
      height_complete_ranking agg = 360 ∧
      generate_images (some doc) true true = Except.ok true ∧
      generate_all_charts (some doc) = Except.ok false := by
  have hprep : prepare_contributor_data doc = Except.ok
      { repository := doc.repository.getD "aquario-ufpb/aquario",
        total_contributors := 0, total_commits := 0, total_additions := 0,
        total_deletions := 0, net_lines := 0, contributors := [] } := by
    simp [prepare_contributor_data, hc, hs, totalAdditionsAgg, totalDeletionsAgg,
          summarizeAllHtml, sortByCommitsDesc]
  refine ⟨_, hprep, rfl, rfl, rfl, rfl, rfl, ?_, ?_⟩
  · simp [generate_images, hprep]
  · simp [generate_all_charts, prepare_contributor_data_charts, hc]

/-- Witness for the amended C5 at the concrete empty document. -/
theorem C5_empty_list_witness :
    docEmpty.contributors = some [] ∧
    docEmpty.statistics.bind Statistics.total_commits = none ∧
    (∃ agg, prepare_contributor_data docEmpty = Except.ok agg ∧
      agg.total_contributors = 0 ∧ agg.total_commits = 0 ∧
      agg.contributors = [] ∧ overview_top3 agg = [] ∧
      height_complete_ranking agg = 360 ∧
      generate_images (some docEmpty) true true = Except.ok true ∧
      generate_all_charts (some docEmpty) = Except.ok false) :=
  ⟨rfl, rfl, C5_empty_list docEmpty rfl rfl⟩

/-- A summary-shape record for the truncation example. -/
def mkRecord (nm : String) (k : Int) : RawContributor :=
  { author := some { login := some nm, avatar_url := some "u", html_url := none },
    total_commits := some k, weeks := none,
    total_additions := some 0, total_deletions := some 0 }

/-- The summary both scripts derive from `mkRecord nm k` (chart variant). -/
def mkSummary (nm : String) (k : Int) : ContributorSummary :=
  { name := nm, commits := k, additions := 0, deletions := 0, net_lines := 0,
    avatar_url := some "u", profile_url := none }

/-- A document holding eleven contributors with distinct commit counts. -/
def docEleven : PyDoc :=
  { repository := none,
    contributors := some [mkRecord "p01" 11, mkRecord "p02" 10, mkRecord "p03" 9,
                          mkRecord "p04" 8, mkRecord "p05" 7, mkRecord "p06" 6,
                          mkRecord "p07" 5, mkRecord "p08" 4, mkRecord "p09" 3,
                          mkRecord "p10" 2, mkRecord "p11" 1],
    statistics := none }

/-- The ranked list the chart script prepares from `docEleven`. -/
def rankedEleven : List ContributorSummary :=
  [mkSummary "p01" 11, mkSummary "p02" 10, mkSummary "p03" 9, mkSummary "p04" 8,
   mkSummary "p05" 7, mkSummary "p06" 6, mkSummary "p07" 5, mkSummary "p08" 4,
   mkSummary "p09" 3, mkSummary "p10" 2, mkSummary "p11" 1]

/-- C6 counterexample: with eleven contributors in the parsed document, the
eleventh ("p11") is in the ranked list but absent from the complete-ranking
chart view, which truncates to the first 10 — so not every contributor appears
in the complete-ranking consumer's input. -/
theorem C6_counterexample :
    prepare_contributor_data_charts docEleven = Except.ok rankedEleven ∧
    "p11" ∈ rankedEleven.map ContributorSummary.name ∧
    ¬ "p11" ∈ (complete_ranking_chart_contributors rankedEleven).map ContributorSummary.name := by
  refine ⟨by decide, by decide, by decide⟩

/-- C6 (amended): the HTML detailed-ranking consumer receives the full ranked
list (every derived summary appears, no truncation) and both top-contributors
consumers receive exactly the first 3 of the ranked list; the matplotlib
complete-ranking chart, however, truncates the ranked list to its first 10
entries. -/
theorem C6_views (doc : PyDoc) (agg : RunAggregate) (ds : List ContributorSummary)
    (h : prepare_contributor_data doc = Except.ok agg)
    (hds : summarizeAllHtml (doc.contributors.getD []) = Except.ok ds) :
    (∀ s ∈ ds, s ∈ detailed_ranking_rows agg) ∧
    overview_top3 agg = agg.contributors.take 3 ∧
    (∀ l : List ContributorSummary, top3_chart_contributors l = l.take 3) ∧
    (∀ l : List ContributorSummary, complete_ranking_chart_contributors l = l.take 10) ∧
    (∀ l : List ContributorSummary, 10 < l.length →
      (complete_ranking_chart_contributors l).length = 10) := by
  simp only [prepare_contributor_data] at h
  rw [hds] at h
  cases h
  refine ⟨?_, rfl, fun l => rfl, fun l => rfl, ?_⟩
  · intro s hsmem
    exact (sortByCommitsDesc_perm ds).symm.subset hsmem
  · intro l hlen
    simp only [complete_ranking_chart_contributors, List.length_take]
    exact Nat.min_eq_left (Nat.le_of_lt hlen)

/-- The HTML-script aggregate for `docEleven`. -/
def aggEleven : RunAggregate :=
  { repository := "aquario-ufpb/aquario", total_contributors := 11, total_commits := 66,
    total_additions := 0, total_deletions := 0, net_lines := 0,
    contributors := rankedEleven }

/-- Witness for the amended C6 at the eleven-contributor document. -/
theorem C6_views_witness :
    prepare_contributor_data docEleven = Except.ok aggEleven ∧
    summarizeAllHtml (docEleven.contributors.getD []) = Except.ok rankedEleven ∧
    ((∀ s ∈ rankedEleven, s ∈ detailed_ranking_rows aggEleven) ∧
     overview_top3 aggEleven = aggEleven.contributors.take 3 ∧
     (∀ l : List ContributorSummary, top3_chart_contributors l = l.take 3) ∧
     (∀ l : List ContributorSummary, complete_ranking_chart_contributors l = l.take 10) ∧
     (∀ l : List ContributorSummary, 10 < l.length →
       (complete_ranking_chart_contributors l).length = 10)) :=
  ⟨by decide, by decide,
   C6_views docEleven aggEleven rankedEleven (by decide) (by decide)⟩

theorem isFullFile_not_summary {n : String} (h : isFullFile n = true) :
    isSummaryFile n = false := by
  unfold isFullFile at h
  obtain ⟨⟨h1, h2⟩, h3⟩ := by simpa [Bool.and_eq_true] using h
  unfold isSummaryFile
  simp [h2]

/-- C7: whenever at least one full-convention file exists in the listing, the
locator selects a full-convention file of maximal modification time among the
full-convention files — summary-named files are never candidates, however new
they are. -/
theorem C7_locator_prefers_full (files : List FileEntry) (f : FileEntry)
    (hf : f ∈ files) (hfull : isFullFile f.name = true) :
    ∃ g, load_data_select files = some g ∧ g ∈ files ∧ isFullFile g.name = true ∧
      isSummaryFile g.name = false ∧
      ∀ e ∈ files, isFullFile e.name = true → e.mtime ≤ g.mtime := by
  have hmem : f ∈ files.filter (fun x => isFullFile x.name) :=
    List.mem_filter.mpr ⟨hf, hfull⟩
  obtain ⟨m, hhead, hm, hmax⟩ := sortByMtimeDesc_head_max hmem
  have hne : (files.filter (fun x => isFullFile x.name)).isEmpty = false := by
    cases hfe : files.filter (fun x => isFullFile x.name) with
    | nil => rw [hfe] at hmem; cases hmem
    | cons a as => rfl
  have hmfull : isFullFile m.name = true := (List.mem_filter.mp hm).2
  refine ⟨m, ?_, (List.mem_filter.mp hm).1, hmfull, isFullFile_not_summary hmfull, ?_⟩
  · simp only [load_data_select, hne, Bool.false_eq_true, if_false]
    exact hhead
  · intro e he hef
    exact hmax e (List.mem_filter.mpr ⟨he, hef⟩)

/-- An old full-convention file. -/
def fullOld : FileEntry := { name := "contributors-2024-01.json", mtime := 5 }

/-- A strictly newer summary-convention file. -/
def summaryNew : FileEntry := { name := "contributors-summary-2024-02.json", mtime := 9 }

/-- A listing where the summary file is newer than the full file. -/
def filesC7 : List FileEntry := [summaryNew, fullOld]

/-- Witness for C7: even though the summary file is strictly newer, the
locator selects the full file. -/
theorem C7_locator_prefers_full_witness :
    fullOld ∈ filesC7 ∧ isFullFile fullOld.name = true ∧
    isSummaryFile summaryNew.name = true ∧ fullOld.mtime < summaryNew.mtime ∧
    (∃ g, load_data_select filesC7 = some g ∧ g ∈ filesC7 ∧ isFullFile g.name = true ∧
      isSummaryFile g.name = false ∧
      ∀ e ∈ filesC7, isFullFile e.name = true → e.mtime ≤ g.mtime) ∧
    load_data_select filesC7 = some fullOld :=
  ⟨by decide, by decide, by decide, by decide,
   C7_locator_prefers_full filesC7 fullOld (by decide) (by decide), by decide⟩

/-- C8: when the listing contains zero files of either naming convention, the
locator deterministically selects no file, and both pipelines return False
(exit code 1) regardless of what the renderers would have done — a diagnostic
abort before any rendering, not a crash. -/
theorem C8_no_matching_files (files : List FileEntry) (r1 r2 : Bool)
    (h : ∀ f ∈ files, isFullFile f.name = false ∧ isSummaryFile f.name = false) :
    load_data_select files = none ∧
    generate_images none r1 r2 = Except.ok false ∧
    generate_all_charts none = Except.ok false ∧
    mainExitCode (generate_images none r1 r2) = Except.ok 1 ∧
    mainExitCode (generate_all_charts none) = Except.ok 1 := by
  have h1 : files.filter (fun x => isFullFile x.name) = [] :=
    List.filter_eq_nil_iff.mpr (fun a ha => by simp [(h a ha).1])
  have h2 : files.filter (fun x => isSummaryFile x.name) = [] :=
    List.filter_eq_nil_iff.mpr (fun a ha => by simp [(h a ha).2])
  exact ⟨by simp [load_data_select, h1, h2], rfl, rfl, rfl, rfl⟩

/-- A listing with no file of either convention. -/
def filesC8 : List FileEntry := [{ name := "readme.md", mtime := 100 }]

/-- Witness for C8 at a listing holding only an unrelated file. -/
theorem C8_no_matching_files_witness :
    (∀ f ∈ filesC8, isFullFile f.name = false ∧ isSummaryFile f.name = false) ∧
    (load_data_select filesC8 = none ∧
     generate_images none true true = Except.ok false ∧
     generate_all_charts none = Except.ok false ∧
     mainExitCode (generate_images none true true) = Except.ok 1 ∧
     mainExitCode (generate_all_charts none) = Except.ok 1) :=
  ⟨by decide, C8_no_matching_files filesC8 true true (by decide)⟩

/-- C9: aggregation followed by ranking produces exactly one summary per input
record: in both pipelines, whenever preparation succeeds the ranked list is a
permutation of the summaries derived one-per-record from the input (nothing
dropped, nothing duplicated, no de-duplication), its length is the number of
input records, and the HTML aggregate's total_contributors equals that
number. -/
theorem C9_one_summary_per_record (doc : PyDoc) :
    (∀ agg, prepare_contributor_data doc = Except.ok agg →
      ∃ ds, summarizeAllHtml (doc.contributors.getD []) = Except.ok ds ∧
        agg.contributors ~ ds ∧
        ds.length = (doc.contributors.getD []).length ∧
        agg.total_contributors = (doc.contributors.getD []).length ∧
        agg.contributors.length = (doc.contributors.getD []).length) ∧
    (∀ l, prepare_contributor_data_charts doc = Except.ok l →
      ∃ ds, summarizeAllCharts (doc.contributors.getD []) = Except.ok ds ∧
        l ~ ds ∧ l.length = (doc.contributors.getD []).length) := by
  constructor
  · intro agg h
    simp only [prepare_contributor_data] at h
    cases hs : summarizeAllHtml (doc.contributors.getD []) with
    | error e => rw [hs] at h; exact Except.noConfusion h
    | ok ds =>
      rw [hs] at h
      cases h
      have hlen := (summarizeAllHtml_ok_stats hs).1
      exact ⟨ds, rfl, sortByCommitsDesc_perm ds, hlen, rfl,
        ((sortByCommitsDesc_perm ds).length_eq).trans hlen⟩
  · intro l h
    simp only [prepare_contributor_data_charts] at h
    cases hemp : (doc.contributors.getD []).isEmpty with
    | true =>
      rw [hemp] at h
      simp only [if_true] at h
      cases h
      have hnil : doc.contributors.getD [] = [] := by
        cases hcs : doc.contributors.getD [] with
        | nil => rfl
        | cons a as => rw [hcs] at hemp; exact Bool.noConfusion hemp
      rw [hnil]
      exact ⟨[], rfl, List.Perm.refl [], rfl⟩
    | false =>
      rw [hemp] at h
      simp only [Bool.false_eq_true, if_false] at h
      cases hs : summarizeAllCharts (doc.contributors.getD []) with
      | error e => rw [hs] at h; exact Except.noConfusion h
      | ok ds =>
        rw [hs] at h
        cases h
        exact ⟨ds, rfl, sortByCommitsDesc_perm ds,
          ((sortByCommitsDesc_perm ds).length_eq).trans (summarizeAllCharts_ok_length hs)⟩

/-- Witness for C9 at the eleven-contributor document, for both pipelines. -/
theorem C9_one_summary_per_record_witness :
    prepare_contributor_data docEleven = Except.ok aggEleven ∧
    prepare_contributor_data_charts docEleven = Except.ok rankedEleven ∧
    (∃ ds, summarizeAllHtml (docEleven.contributors.getD []) = Except.ok ds ∧
      aggEleven.contributors ~ ds ∧
      ds.length = (docEleven.contributors.getD []).length ∧
      aggEleven.total_contributors = (docEleven.contributors.getD []).length ∧
      aggEleven.contributors.length = (docEleven.contributors.getD []).length) ∧
    (∃ ds, summarizeAllCharts (docEleven.contributors.getD []) = Except.ok ds ∧
      rankedEleven ~ ds ∧ rankedEleven.length = (docEleven.contributors.getD []).length) :=
  ⟨by decide, by decide,
   (C9_one_summary_per_record docEleven).1 aggEleven (by decide),
   (C9_one_summary_per_record docEleven).2 rankedEleven (by decide)⟩

/-- C10: missing optional numeric fields read as 0 rather than raising: a
summary-shape record lacking total_additions (resp. total_deletions) derives
additions (resp. deletions) 0, and in a full-shape record a week entry lacking
an additions or deletions field contributes 0 to the respective sum. -/
theorem C10_missing_fields_default_zero (c : RawContributor) (w : Week)
    (pre post : List Week) :
    (c.weeks = none → c.total_additions = none → recordAdditions c = 0) ∧
    (c.weeks = none → c.total_deletions = none → recordDeletions c = 0) ∧
    (w.additions = none → weekAdditions w = 0) ∧
    (w.deletions = none → weekDeletions w = 0) ∧
    (c.weeks = some (pre ++ w :: post) → w.additions = none →
      recordAdditions c = ((pre ++ post).map weekAdditions).sum) ∧
    (c.weeks = some (pre ++ w :: post) → w.deletions = none →
      recordDeletions c = ((pre ++ post).map weekDeletions).sum) := by
  refine ⟨?_, ?_, ?_, ?_, ?_, ?_⟩
  · intro h1 h2
    simp [recordAdditions, h1, h2]
  · intro h1 h2
    simp [recordDeletions, h1, h2]
  · intro h
    simp [weekAdditions, h]
  · intro h
    simp [weekDeletions, h]
  · intro h1 h2
    simp [recordAdditions, h1, weekAdditions, h2]
  · intro h1 h2
    simp [recordDeletions, h1, weekDeletions, h2]

/-- A record with neither totals nor weeks fields. -/
def recordNoTotals : RawContributor :=
  { author := none, total_commits := none, weeks := none,
    total_additions := none, total_deletions := none }

/-- A week entry with both numeric fields absent. -/
def weekNone : Week := { additions := none, deletions := none }

/-- A full-shape record whose first week lacks both numeric fields. -/
def recordWeekGap : RawContributor :=
  { author := none, total_commits := none,
    weeks := some [weekNone, { additions := some 4, deletions := some 1 }],
    total_additions := none, total_deletions := none }

/-- Witness for C10 at concrete records with absent fields. -/
theorem C10_missing_fields_default_zero_witness :
    recordNoTotals.weeks = none ∧ recordNoTotals.total_additions = none ∧
    recordNoTotals.total_deletions = none ∧ weekNone.additions = none ∧
    recordWeekGap.weeks = some ([] ++ weekNone :: [{ additions := some 4, deletions := some 1 }]) ∧
    recordAdditions recordNoTotals = 0 ∧ recordDeletions recordNoTotals = 0 ∧
    weekAdditions weekNone = 0 ∧
    recordAdditions recordWeekGap =
      (([] ++ [({ additions := some 4, deletions := some 1 } : Week)]).map weekAdditions).sum :=
  ⟨rfl, rfl, rfl, rfl, rfl,
   (C10_missing_fields_default_zero recordNoTotals weekNone [] []).1 rfl rfl,
   (C10_missing_fields_default_zero recordNoTotals weekNone [] []).2.1 rfl rfl,
   (C10_missing_fields_default_zero recordNoTotals weekNone [] []).2.2.1 rfl,
   (C10_missing_fields_default_zero recordWeekGap weekNone []
      [{ additions := some 4, deletions := some 1 }]).2.2.2.2.1 rfl rfl⟩
